import Mathlib

/-!
Shallow embedding of `src/main.py` (a Flask gateway in front of the PokeAPI):
the authorization decorator `requiere_autorizacion`, the allow-list
`EMAILS_PERMITIDOS` parsed from configuration, and the three protected
endpoints `get_pokemon_type`, `get_random_pokemon_by_type` and
`get_longest_name_pokemon`.

Modelling conventions:
- The Flask session dictionary entry `session["user"]` becomes
  `Option UserClaims`; presence of the `"email"` key inside it becomes
  `UserClaims.email?  : Option String`.
- The upstream HTTP interaction of one `requests.get` call becomes a function
  from the requested key (the lowercased path segment) to a `FetchOutcome`:
  a raised transport exception (`netError`), or a reply carrying a status code
  and a body that either fails to parse (`malformed`, i.e. `response.json()`
  or the subsequent field extraction raises) or parses to the typed document.
- Each handler returns its HTTP response together with the list of upstream
  keys it actually requested, so "zero upstream calls" is the trace `[]`.
- `random.choice(seq)` becomes selection of index `r % seq.length` from a
  raw random number `r`; a uniform `r` modulo the length is uniform over
  positions.
-/

namespace PokeAPI

/-- The identity claims stored in `session["user"]`; only the `"email"` key is
read by the gate, so it is the one field modelled.  `none` models the key being
absent from the claims dictionary. -/
structure UserClaims where
  email? : Option String
deriving Repr, DecidableEq

/-- Python's `str.lower()`, as applied in `name.lower()` / `pokemon_type.lower()`:
per-character lowercasing. -/
def pyLower (s : String) : String :=
  String.mk (s.data.map Char.toLower)

/-- Chunks of a character list split at every `','`, in order.  Splitting the
empty list yields one empty chunk, exactly as Python's `"".split(",") == [""]`. -/
def splitCommaChunks : List Char → List (List Char)
  | [] => [[]]
  | c :: rest =>
    match splitCommaChunks rest with
    | [] => [[]]
    | chunk :: chunks =>
      if c = ',' then [] :: chunk :: chunks
      else (c :: chunk) :: chunks

/-- Python's `s.split(",")`: the comma-separated chunks of `s`; the empty
string splits to `[""]`. -/
def pySplitComma (s : String) : List String :=
  (splitCommaChunks s.data).map String.mk

/-- `EMAILS_PERMITIDOS = os.getenv("EMAILS_PERMITIDOS", "").split(",")`
(src/main.py line 23), parameterised by the environment-variable value; the
default when the variable is unset is the empty string. -/
def EMAILS_PERMITIDOS (env : String) : List String :=
  pySplitComma env

/-- Result of the decorator `requiere_autorizacion` around a handler producing
an `α`: a redirect response, an `abort(status)`, or the wrapped handler's own
result. -/
inductive GateOutcome (α : Type) where
  | redirectTo (loc : String)
  | aborted (status : Nat)
  | handled (a : α)
deriving Repr, DecidableEq

/-- `requiere_autorizacion` (src/main.py lines 110-124): redirect to `/login`
when `"user" not in session or "email" not in session["user"]`; `abort(403)`
when `session["user"]["email"] not in EMAILS_PERMITIDOS`; otherwise run the
wrapped handler. -/
def requiere_autorizacion {α : Type} (sess : Option UserClaims)
    (allow : List String) (f : α) : GateOutcome α :=
  match sess with
  | none => .redirectTo "/login"
  | some u =>
    match u.email? with
    | none => .redirectTo "/login"
    | some e =>
      if allow.contains e then .handled f else .aborted 403

/-- An upstream `{"name": ..., "url": ...}` reference, as found both in
`data['types'][i]['type']` and in `data['pokemon'][i]['pokemon']`. -/
structure NamedAPIResource where
  name : String
  url : String
deriving Repr, DecidableEq

/-- One entry of `data['types']`: `{"slot": ..., "type": {...}}`; only the
`'type'` field is read. -/
structure TypeSlot where
  type : NamedAPIResource
deriving Repr, DecidableEq

/-- Parsed body of `GET /pokemon/{name}`: `data.get('types', [])` means the
`'types'` key may be absent, defaulting to `[]`. -/
structure PokemonDoc where
  types? : Option (List TypeSlot)
deriving Repr, DecidableEq

/-- One entry of `data['pokemon']`: `{"pokemon": {...}, "slot": ...}`; only the
`'pokemon'` field is read. -/
structure PokemonSlot where
  pokemon : NamedAPIResource
deriving Repr, DecidableEq

/-- Parsed body of `GET /type/{type}`: `data.get('pokemon', [])` means the
`'pokemon'` key may be absent, defaulting to `[]`. -/
structure TypeDoc where
  pokemon? : Option (List PokemonSlot)
deriving Repr, DecidableEq

/-- Outcome of parsing a reply body: `response.json()` (or the comprehension
extracting fields from it) raises, or yields the typed document. -/
inductive ParseOutcome (β : Type) where
  | malformed
  | parsed (b : β)
deriving Repr, DecidableEq

/-- Outcome of one `requests.get` call: the transport raises (network error),
or a reply arrives with a status code and a body. -/
inductive FetchOutcome (β : Type) where
  | netError
  | reply (status : Nat) (body : ParseOutcome β)
deriving Repr, DecidableEq

/-- The HTTP responses the three handlers and the gate can produce. -/
inductive Resp where
  | redirect (loc : String)
  | aborted (status : Nat)
  | jsonErr (status : Nat) (msg : String)
  | jsonTypes (name : String) (types : List String)
  | jsonPokemon (p : NamedAPIResource)
deriving Repr, DecidableEq

/-- HTTP status code of a modelled response (redirects are 302, `jsonify`
successes are 200). -/
def Resp.statusOf : Resp → Nat
  | .redirect _ => 302
  | .aborted s => s
  | .jsonErr s _ => s
  | .jsonTypes _ _ => 200
  | .jsonPokemon _ => 200

/-- `get_pokemon_type` handler body (src/main.py lines 128-151), after the
decorator.  `name?` is `request.args.get('name')` (`none` when the parameter
is absent); `pokeapi` maps the requested lowercased name to the outcome of
`requests.get(f"{base}/pokemon/{name.lower()}")`.  Returns the response and
the list of upstream keys requested. -/
def get_pokemon_type (name? : Option String)
    (pokeapi : String → FetchOutcome PokemonDoc) : Resp × List String :=
  match name? with
  | none => (.jsonErr 400 "Falta el parametro \x27name\x27", [])
  | some name =>
    if name = "" then (.jsonErr 400 "Falta el parametro \x27name\x27", [])
    else
      match pokeapi (pyLower name) with
      | .netError => (.jsonErr 500 "Error interno del servidor", [(pyLower name)])
      | .reply status body =>
        if status ≠ 200 then
          (.jsonErr 404 "Pokemon no encontrado", [(pyLower name)])
        else
          match body with
          | .malformed => (.jsonErr 500 "Error interno del servidor", [(pyLower name)])
          | .parsed data =>
            (.jsonTypes name ((data.types?.getD []).map (fun t => t.type.name)),
             [(pyLower name)])

/-- `random.choice(x :: xs)` driven by a raw random number `r`: the element at
index `r % length`.  A uniformly distributed `r` modulo the length selects
every position with equal probability, matching `random.choice`'s uniform
index draw. -/
def pyChoice (r : Nat) (x : NamedAPIResource) (xs : List NamedAPIResource) :
    NamedAPIResource :=
  (x :: xs).get ⟨r % (x :: xs).length, Nat.mod_lt r (Nat.succ_pos xs.length)⟩

/-- `get_random_pokemon_by_type` handler body (src/main.py lines 155-181).
`type?` is `request.args.get('type')`; `pokeapi` maps the lowercased type to
the outcome of `requests.get(f"{base}/type/{t.lower()}")`; `r` drives
`random.choice`. -/
def get_random_pokemon_by_type (type? : Option String)
    (pokeapi : String → FetchOutcome TypeDoc) (r : Nat) : Resp × List String :=
  match type? with
  | none => (.jsonErr 400 "Falta el parametro \x27type\x27", [])
  | some t =>
    if t = "" then (.jsonErr 400 "Falta el parametro \x27type\x27", [])
    else
      match pokeapi (pyLower t) with
      | .netError => (.jsonErr 500 "Error interno del servidor", [(pyLower t)])
      | .reply status body =>
        if status ≠ 200 then
          (.jsonErr 404 "Tipo no encontrado", [(pyLower t)])
        else
          match body with
          | .malformed => (.jsonErr 500 "Error interno del servidor", [(pyLower t)])
          | .parsed data =>
            match (data.pokemon?.getD []).map (fun p => p.pokemon) with
            | [] => (.jsonErr 404 "No se encontraron Pokemon para este tipo",
                     [(pyLower t)])
            | x :: xs => (.jsonPokemon (pyChoice r x xs), [(pyLower t)])

/-- `max(x :: xs, key=lambda p: len(p['name']))`: CPython's `max` keeps the
current maximum and replaces it only when a later key is strictly greater, so
ties keep the earliest element. -/
def pyMaxByNameLen (x : NamedAPIResource) (xs : List NamedAPIResource) :
    NamedAPIResource :=
  xs.foldl (fun acc y => if acc.name.length < y.name.length then y else acc) x

/-- `get_longest_name_pokemon` handler body (src/main.py lines 185-211). -/
def get_longest_name_pokemon (type? : Option String)
    (pokeapi : String → FetchOutcome TypeDoc) : Resp × List String :=
  match type? with
  | none => (.jsonErr 400 "Falta el parametro \x27type\x27", [])
  | some t =>
    if t = "" then (.jsonErr 400 "Falta el parametro \x27type\x27", [])
    else
      match pokeapi (pyLower t) with
      | .netError => (.jsonErr 500 "Error interno del servidor", [(pyLower t)])
      | .reply status body =>
        if status ≠ 200 then
          (.jsonErr 404 "Tipo no encontrado", [(pyLower t)])
        else
          match body with
          | .malformed => (.jsonErr 500 "Error interno del servidor", [(pyLower t)])
          | .parsed data =>
            match (data.pokemon?.getD []).map (fun p => p.pokemon) with
            | [] => (.jsonErr 404 "No se encontraron Pokemon para este tipo",
                     [(pyLower t)])
            | x :: xs => (.jsonPokemon (pyMaxByNameLen x xs), [(pyLower t)])

/-- Flask's dispatch of the decorator's result: a redirect or abort becomes the
response with no handler work done (empty upstream trace); otherwise the
handler's own response and trace stand. -/
def dispatch (g : GateOutcome (Resp × List String)) : Resp × List String :=
  match g with
  | .redirectTo loc => (.redirect loc, [])
  | .aborted s => (.aborted s, [])
  | .handled r => r

/-- The full `/pokemon/type` route: decorator around the handler body. -/
def app_get_pokemon_type (sess : Option UserClaims) (allow : List String)
    (name? : Option String) (pokeapi : String → FetchOutcome PokemonDoc) :
    Resp × List String :=
  dispatch (requiere_autorizacion sess allow (get_pokemon_type name? pokeapi))

/-- The full `/pokemon/random` route: decorator around the handler body. -/
def app_get_random_pokemon_by_type (sess : Option UserClaims)
    (allow : List String) (type? : Option String)
    (pokeapi : String → FetchOutcome TypeDoc) (r : Nat) : Resp × List String :=
  dispatch (requiere_autorizacion sess allow
    (get_random_pokemon_by_type type? pokeapi r))

/-- The full `/pokemon/longest` route: decorator around the handler body. -/
def app_get_longest_name_pokemon (sess : Option UserClaims)
    (allow : List String) (type? : Option String)
    (pokeapi : String → FetchOutcome TypeDoc) : Resp × List String :=
  dispatch (requiere_autorizacion sess allow
    (get_longest_name_pokemon type? pokeapi))

/-- The three-way authorization decision of the spec's §4.2 contract. -/
inductive Decision where
  | Allow
  | DenyUnauthenticated
  | DenyForbidden
deriving Repr, DecidableEq

/-- Spec-words definition for the refinement claim C1, transcribed from §4.2:
rule, in order: (a) if no session exists, or the session lacks an email claim,
`DenyUnauthenticated`; (b) if the session's email is not an exact member of the
AllowList, `DenyForbidden`; (c) otherwise `Allow`.  Membership `e ∈ allow` is
exact, case-sensitive string equality. -/
def authorizeSpec (sess : Option UserClaims) (allow : List String) : Decision :=
  match sess with
  | none => .DenyUnauthenticated
  | some u =>
    match u.email? with
    | none => .DenyUnauthenticated
    | some e =>
      if e ∈ allow then .Allow else .DenyForbidden

/-- Length of the longest member name in a list, `0` for the empty list. -/
def maxNameLen (xs : List NamedAPIResource) : Nat :=
  xs.foldr (fun p m => max p.name.length m) 0

/-- Spec-words definition for the refinement part of claim C4, transcribed
from §4.3: "selects the member whose name string has the maximum character
length; tie-break: first such member encountered in upstream list order". -/
def firstLongestSpec (xs : List NamedAPIResource) : Option NamedAPIResource :=
  xs.find? (fun p => p.name.length == maxNameLen xs)

/-- Membership tested by the decorator's `not in` (Boolean list containment
with string equality) agrees with exact list membership. -/
theorem contains_iff_mem (l : List String) (e : String) :
    l.contains e = true ↔ e ∈ l := by
  simp [List.contains]

/-- Shared characterisation of the decorator by the spec's three-way decision:
the single case analysis all gate-related results rest on. -/
theorem gate_eq_spec {α : Type} (sess : Option UserClaims)
    (allow : List String) (f : α) :
    requiere_autorizacion sess allow f =
      match authorizeSpec sess allow with
      | .DenyUnauthenticated => .redirectTo "/login"
      | .DenyForbidden => .aborted 403
      | .Allow => .handled f := by
  cases sess with
  | none => rfl
  | some u =>
    cases hu : u.email? with
    | none => simp [requiere_autorizacion, authorizeSpec, hu]
    | some e =>
      by_cases he : e ∈ allow
      · simp [requiere_autorizacion, authorizeSpec, hu, he,
          (contains_iff_mem allow e).mpr he]
      · have hc : allow.contains e = false := by
          cases hcc : allow.contains e with
          | false => rfl
          | true => exact absurd ((contains_iff_mem allow e).mp hcc) he
        simp [requiere_autorizacion, authorizeSpec, hu, he, hc]

/-- C1: for every session state, allow-list and wrapped handler, the decorator
`requiere_autorizacion` decides exactly by the spec's ordered rule
(`authorizeSpec`): no session or no email claim gives a redirect to the login
flow (not an error body); an email that is not an exact, case-sensitive member
of the allow-list gives `abort(403)`; otherwise the wrapped operation runs and
its result is returned. -/
theorem C1_gate_follows_spec_rule {α : Type} (sess : Option UserClaims)
    (allow : List String) (f : α) :
    requiere_autorizacion sess allow f =
      match authorizeSpec sess allow with
      | .DenyUnauthenticated => .redirectTo "/login"
      | .DenyForbidden => .aborted 403
      | .Allow => .handled f :=
  gate_eq_spec sess allow f

/-- C2: a session whose email is present but not on the allow-list gets
`abort(403)` from all three protected routes with an empty upstream trace; and
in general none of the three routes ever performs an upstream call unless the
gate decision is `Allow`. -/
theorem C2_forbidden_means_zero_upstream_calls
    (sess : Option UserClaims) (allow : List String) (u : UserClaims)
    (e : String) (name? type? : Option String)
    (upP : String → FetchOutcome PokemonDoc)
    (upT upT2 : String → FetchOutcome TypeDoc) (r : Nat)
    (hs : sess = some u) (he : u.email? = some e) (hmem : e ∉ allow) :
    app_get_pokemon_type sess allow name? upP = (.aborted 403, []) ∧
    app_get_random_pokemon_by_type sess allow type? upT r = (.aborted 403, []) ∧
    app_get_longest_name_pokemon sess allow type? upT2 = (.aborted 403, []) ∧
    (∀ (s2 : Option UserClaims) (a2 : List String) (n2 : Option String)
        (u2 : String → FetchOutcome PokemonDoc),
        (app_get_pokemon_type s2 a2 n2 u2).2 ≠ [] →
          authorizeSpec s2 a2 = .Allow) ∧
    (∀ (s2 : Option UserClaims) (a2 : List String) (t2 : Option String)
        (u2 : String → FetchOutcome TypeDoc) (r2 : Nat),
        (app_get_random_pokemon_by_type s2 a2 t2 u2 r2).2 ≠ [] →
          authorizeSpec s2 a2 = .Allow) ∧
    (∀ (s2 : Option UserClaims) (a2 : List String) (t2 : Option String)
        (u2 : String → FetchOutcome TypeDoc),
        (app_get_longest_name_pokemon s2 a2 t2 u2).2 ≠ [] →
          authorizeSpec s2 a2 = .Allow) := by
  subst hs
  have hdec : authorizeSpec (some u) allow = .DenyForbidden := by
    simp [authorizeSpec, he, hmem]
  refine ⟨?_, ?_, ?_, ?_, ?_, ?_⟩
  · simp [app_get_pokemon_type, gate_eq_spec, hdec, dispatch]
  · simp [app_get_random_pokemon_by_type, gate_eq_spec, hdec, dispatch]
  · simp [app_get_longest_name_pokemon, gate_eq_spec, hdec, dispatch]
  · intro s2 a2 n2 u2 h
    cases hd : authorizeSpec s2 a2 with
    | Allow => rfl
    | DenyUnauthenticated =>
      simp [app_get_pokemon_type, gate_eq_spec, hd, dispatch] at h
    | DenyForbidden =>
      simp [app_get_pokemon_type, gate_eq_spec, hd, dispatch] at h
  · intro s2 a2 t2 u2 r2 h
    cases hd : authorizeSpec s2 a2 with
    | Allow => rfl
    | DenyUnauthenticated =>
      simp [app_get_random_pokemon_by_type, gate_eq_spec, hd, dispatch] at h
    | DenyForbidden =>
      simp [app_get_random_pokemon_by_type, gate_eq_spec, hd, dispatch] at h
  · intro s2 a2 t2 u2 h
    cases hd : authorizeSpec s2 a2 with
    | Allow => rfl
    | DenyUnauthenticated =>
      simp [app_get_longest_name_pokemon, gate_eq_spec, hd, dispatch] at h
    | DenyForbidden =>
      simp [app_get_longest_name_pokemon, gate_eq_spec, hd, dispatch] at h

/-- C2 witness: a concrete off-list session is rejected with 403 and an empty
upstream trace on all three routes. -/
theorem C2_witness :
    app_get_pokemon_type (some ⟨some "evil@x.com"⟩) ["good@x.com"]
        (some "pikachu") (fun _ => .netError) = (.aborted 403, []) ∧
    app_get_random_pokemon_by_type (some ⟨some "evil@x.com"⟩) ["good@x.com"]
        (some "fire") (fun _ => .netError) 7 = (.aborted 403, []) ∧
    app_get_longest_name_pokemon (some ⟨some "evil@x.com"⟩) ["good@x.com"]
        (some "fire") (fun _ => .netError) = (.aborted 403, []) := by
  have h := C2_forbidden_means_zero_upstream_calls
    (some ⟨some "evil@x.com"⟩) ["good@x.com"] ⟨some "evil@x.com"⟩ "evil@x.com"
    (some "pikachu") (some "fire") (fun _ => .netError) (fun _ => .netError)
    (fun _ => .netError) 7 rfl rfl (by decide)
  exact ⟨h.1, h.2.1, h.2.2.1⟩

/-- C3 counterexample: with the allow-list parsed from the default (empty)
`EMAILS_PERMITIDOS` configuration, a session whose email claim is present but
empty is allowed: the spec decision is `Allow` and the decorator runs the
wrapped handler, because `"".split(",") == [""]` puts the empty string on the
allow-list. -/
theorem C3_counterexample_empty_email_allowed :
    authorizeSpec (some ⟨some ""⟩) (EMAILS_PERMITIDOS "") = .Allow ∧
    requiere_autorizacion (some ⟨some ""⟩) (EMAILS_PERMITIDOS "") (0 : Nat) =
      .handled 0 := by
  constructor
  · decide
  · decide

/-- C3 (amended): a missing session or a session without an email claim is
always redirected to login (never allowed); and a session whose email claim is
the empty string is rejected with 403 provided the empty string is not itself a
member of the allow-list — which it is under the default empty
`EMAILS_PERMITIDOS` configuration, where such a session is allowed. -/
theorem C3_unpopulated_email_never_allowed {α : Type} (u : UserClaims)
    (allow : List String) (f : α) :
    (requiere_autorizacion none allow f = .redirectTo "/login") ∧
    (u.email? = none →
      requiere_autorizacion (some u) allow f = .redirectTo "/login") ∧
    (u.email? = some "" → "" ∉ allow →
      requiere_autorizacion (some u) allow f = .aborted 403) := by
  refine ⟨rfl, ?_, ?_⟩
  · intro hu
    simp [requiere_autorizacion, hu]
  · intro hu hmem
    have hc : allow.contains "" = false := by
      cases hcc : allow.contains "" with
      | false => rfl
      | true => exact absurd ((contains_iff_mem allow "").mp hcc) hmem
    simp [requiere_autorizacion, hu, hc, hmem]

/-- C3 witness: a concrete empty-email session is rejected when the empty
string is not on the allow-list. -/
theorem C3_witness :
    requiere_autorizacion (some ⟨some ""⟩) ["a@b.com"] (0 : Nat) =
      .aborted 403 :=
  (C3_unpopulated_email_never_allowed ⟨some ""⟩ ["a@b.com"] 0).2.2 rfl
    (by decide)

/-- C8: on each of the three operations, a missing required query parameter
yields the 400-class error whose message names that parameter, with an empty
upstream trace. -/
theorem C8_missing_param_400_no_upstream
    (upP : String → FetchOutcome PokemonDoc)
    (upT upT2 : String → FetchOutcome TypeDoc) (r : Nat) :
    get_pokemon_type none upP =
      (.jsonErr 400 "Falta el parametro \x27name\x27", []) ∧
    get_random_pokemon_by_type none upT r =
      (.jsonErr 400 "Falta el parametro \x27type\x27", []) ∧
    get_longest_name_pokemon none upT2 =
      (.jsonErr 400 "Falta el parametro \x27type\x27", []) ∧
    (∃ pre post : List Char,
      pre ++ "name".data ++ post = ("Falta el parametro \x27name\x27").data) ∧
    (∃ pre post : List Char,
      pre ++ "type".data ++ post = ("Falta el parametro \x27type\x27").data) :=
  ⟨rfl, rfl, rfl,
   ⟨("Falta el parametro \x27").data, ("\x27").data, by decide⟩,
   ⟨("Falta el parametro \x27").data, ("\x27").data, by decide⟩⟩

/-- C10: a query parameter present but equal to the empty string is handled
exactly like a missing parameter on all three operations: same 400-class
response naming the parameter, no upstream call, because `if not param` tests
falsiness rather than presence. -/
theorem C10_empty_param_equals_missing
    (upP : String → FetchOutcome PokemonDoc)
    (upT upT2 : String → FetchOutcome TypeDoc) (r : Nat) :
    get_pokemon_type (some "") upP = get_pokemon_type none upP ∧
    get_random_pokemon_by_type (some "") upT r =
      get_random_pokemon_by_type none upT r ∧
    get_longest_name_pokemon (some "") upT2 =
      get_longest_name_pokemon none upT2 ∧
    get_pokemon_type (some "") upP =
      (.jsonErr 400 "Falta el parametro \x27name\x27", []) ∧
    get_random_pokemon_by_type (some "") upT r =
      (.jsonErr 400 "Falta el parametro \x27type\x27", []) ∧
    get_longest_name_pokemon (some "") upT2 =
      (.jsonErr 400 "Falta el parametro \x27type\x27", []) := by
  refine ⟨?_, ?_, ?_, ?_, ?_, ?_⟩ <;>
    simp [get_pokemon_type, get_random_pokemon_by_type,
      get_longest_name_pokemon]

/-- C5: for both category endpoints, any non-200 upstream status yields the
404 "Tipo no encontrado" outcome (whatever the body), an upstream 200 with an
empty member list yields the distinct 404 "No se encontraron Pokemon para este
tipo" outcome, the two messages differ, and both responses carry status 404. -/
theorem C5_not_found_cases (t : String)
    (upT upT2 : String → FetchOutcome TypeDoc) (r status : Nat)
    (body : ParseOutcome TypeDoc) (d : TypeDoc) (ht : t ≠ "") :
    (upT (pyLower t) = .reply status body → status ≠ 200 →
      get_random_pokemon_by_type (some t) upT r =
        (.jsonErr 404 "Tipo no encontrado", [pyLower t])) ∧
    (upT2 (pyLower t) = .reply status body → status ≠ 200 →
      get_longest_name_pokemon (some t) upT2 =
        (.jsonErr 404 "Tipo no encontrado", [pyLower t])) ∧
    (upT (pyLower t) = .reply 200 (.parsed d) → d.pokemon?.getD [] = [] →
      get_random_pokemon_by_type (some t) upT r =
        (.jsonErr 404 "No se encontraron Pokemon para este tipo", [pyLower t])) ∧
    (upT2 (pyLower t) = .reply 200 (.parsed d) → d.pokemon?.getD [] = [] →
      get_longest_name_pokemon (some t) upT2 =
        (.jsonErr 404 "No se encontraron Pokemon para este tipo", [pyLower t])) ∧
    ("Tipo no encontrado" ≠ "No se encontraron Pokemon para este tipo") ∧
    Resp.statusOf (.jsonErr 404 "Tipo no encontrado") = 404 ∧
    Resp.statusOf
      (.jsonErr 404 "No se encontraron Pokemon para este tipo") = 404 := by
  refine ⟨?_, ?_, ?_, ?_, by decide, rfl, rfl⟩
  · intro hup hst
    simp [get_random_pokemon_by_type, ht, hup, hst]
  · intro hup hst
    simp [get_longest_name_pokemon, ht, hup, hst]
  · intro hup hempty
    simp [get_random_pokemon_by_type, ht, hup, hempty]
  · intro hup hempty
    simp [get_longest_name_pokemon, ht, hup, hempty]

/-- C5 witness: a 503 upstream reply gives "Tipo no encontrado" on both
category endpoints, and a 200 reply with an empty member list gives "No se
encontraron Pokemon para este tipo" on both. -/
theorem C5_witness :
    get_random_pokemon_by_type (some "fire")
        (fun _ => .reply 503 .malformed) 0 =
      (.jsonErr 404 "Tipo no encontrado", [pyLower "fire"]) ∧
    get_longest_name_pokemon (some "fire") (fun _ => .reply 503 .malformed) =
      (.jsonErr 404 "Tipo no encontrado", [pyLower "fire"]) ∧
    get_random_pokemon_by_type (some "fire")
        (fun _ => .reply 200 (.parsed ⟨some []⟩)) 0 =
      (.jsonErr 404 "No se encontraron Pokemon para este tipo",
       [pyLower "fire"]) ∧
    get_longest_name_pokemon (some "fire")
        (fun _ => .reply 200 (.parsed ⟨some []⟩)) =
      (.jsonErr 404 "No se encontraron Pokemon para este tipo",
       [pyLower "fire"]) := by
  have h1 := C5_not_found_cases "fire" (fun _ => .reply 503 .malformed)
    (fun _ => .reply 503 .malformed) 0 503 .malformed ⟨some []⟩ (by decide)
  have h2 := C5_not_found_cases "fire"
    (fun _ => .reply 200 (.parsed ⟨some []⟩))
    (fun _ => .reply 200 (.parsed ⟨some []⟩)) 0 503 .malformed ⟨some []⟩
    (by decide)
  exact ⟨h1.1 rfl (by decide), h1.2.1 rfl (by decide),
    h2.2.2.1 rfl rfl, h2.2.2.2.1 rfl rfl⟩

/-- C6: `get_pokemon_type` always fetches under the lowercased name (the
upstream trace is exactly that one key); a non-200 upstream reply yields the
404 "Pokemon no encontrado" outcome; a 200 reply yields
`{"name": name, "types": ...}` with the category labels mapped in exactly the
upstream order, without deduplication. -/
theorem C6_types_of (name : String) (upP : String → FetchOutcome PokemonDoc)
    (status : Nat) (body : ParseOutcome PokemonDoc) (d : PokemonDoc)
    (hn : name ≠ "") :
    (get_pokemon_type (some name) upP).2 = [pyLower name] ∧
    (upP (pyLower name) = .reply status body → status ≠ 200 →
      get_pokemon_type (some name) upP =
        (.jsonErr 404 "Pokemon no encontrado", [pyLower name])) ∧
    (upP (pyLower name) = .reply 200 (.parsed d) →
      get_pokemon_type (some name) upP =
        (.jsonTypes name ((d.types?.getD []).map (fun t => t.type.name)),
         [pyLower name])) := by
  refine ⟨?_, ?_, ?_⟩
  · cases hup : upP (pyLower name) with
    | netError => simp [get_pokemon_type, hn, hup]
    | reply st b =>
      by_cases hst : st = 200
      · cases b <;> simp [get_pokemon_type, hn, hup, hst]
      · simp [get_pokemon_type, hn, hup, hst]
  · intro hup hst
    simp [get_pokemon_type, hn, hup, hst]
  · intro hup
    simp [get_pokemon_type, hn, hup]

/-- C6 witness: `typesOf("pikachu")` against an upstream returning categories
`["electric"]` yields exactly `{"name": "pikachu", "types": ["electric"]}`. -/
theorem C6_witness :
    get_pokemon_type (some "pikachu")
        (fun _ => .reply 200 (.parsed ⟨some [⟨⟨"electric", "u"⟩⟩]⟩)) =
      (.jsonTypes "pikachu" ["electric"], [pyLower "pikachu"]) := by
  have h := (C6_types_of "pikachu"
    (fun _ => .reply 200 (.parsed ⟨some [⟨⟨"electric", "u"⟩⟩]⟩)) 200
    (.parsed ⟨some [⟨⟨"electric", "u"⟩⟩]⟩) ⟨some [⟨⟨"electric", "u"⟩⟩]⟩
    (by decide)).2.2 rfl
  simpa using h

/-- C9: on all three operations, a network error or a malformed 200 body
yields the 500-class "Error interno del servidor" outcome with exactly one
upstream call (no retry, no partial result), and that outcome is distinct in
status and message from every 404-class not-found outcome. -/
theorem C9_transport_faults_500 (name t : String)
    (upP : String → FetchOutcome PokemonDoc)
    (upT upT2 : String → FetchOutcome TypeDoc) (r : Nat)
    (hn : name ≠ "") (ht : t ≠ "") :
    (upP (pyLower name) = .netError →
      get_pokemon_type (some name) upP =
        (.jsonErr 500 "Error interno del servidor", [pyLower name])) ∧
    (upP (pyLower name) = .reply 200 .malformed →
      get_pokemon_type (some name) upP =
        (.jsonErr 500 "Error interno del servidor", [pyLower name])) ∧
    (upT (pyLower t) = .netError →
      get_random_pokemon_by_type (some t) upT r =
        (.jsonErr 500 "Error interno del servidor", [pyLower t])) ∧
    (upT (pyLower t) = .reply 200 .malformed →
      get_random_pokemon_by_type (some t) upT r =
        (.jsonErr 500 "Error interno del servidor", [pyLower t])) ∧
    (upT2 (pyLower t) = .netError →
      get_longest_name_pokemon (some t) upT2 =
        (.jsonErr 500 "Error interno del servidor", [pyLower t])) ∧
    (upT2 (pyLower t) = .reply 200 .malformed →
      get_longest_name_pokemon (some t) upT2 =
        (.jsonErr 500 "Error interno del servidor", [pyLower t])) ∧
    Resp.statusOf (.jsonErr 500 "Error interno del servidor") = 500 ∧
    ("Error interno del servidor" ≠ "Pokemon no encontrado") ∧
    ("Error interno del servidor" ≠ "Tipo no encontrado") ∧
    ("Error interno del servidor" ≠
      "No se encontraron Pokemon para este tipo") := by
  refine ⟨?_, ?_, ?_, ?_, ?_, ?_, rfl, by decide, by decide, by decide⟩
  · intro hup; simp [get_pokemon_type, hn, hup]
  · intro hup; simp [get_pokemon_type, hn, hup]
  · intro hup; simp [get_random_pokemon_by_type, ht, hup]
  · intro hup; simp [get_random_pokemon_by_type, ht, hup]
  · intro hup; simp [get_longest_name_pokemon, ht, hup]
  · intro hup; simp [get_longest_name_pokemon, ht, hup]

/-- C9 witness: a concrete network error and a concrete malformed 200 body
each produce the 500-class outcome with a single upstream call. -/
theorem C9_witness :
    get_pokemon_type (some "pikachu") (fun _ => .netError) =
      (.jsonErr 500 "Error interno del servidor", [pyLower "pikachu"]) ∧
    get_random_pokemon_by_type (some "fire")
        (fun _ => .reply 200 .malformed) 3 =
      (.jsonErr 500 "Error interno del servidor", [pyLower "fire"]) ∧
    get_longest_name_pokemon (some "fire") (fun _ => .netError) =
      (.jsonErr 500 "Error interno del servidor", [pyLower "fire"]) := by
  have h := C9_transport_faults_500 "pikachu" "fire" (fun _ => .netError)
    (fun _ => .reply 200 .malformed) (fun _ => .netError) 3
    (by decide) (by decide)
  exact ⟨h.1 rfl, h.2.2.2.1 rfl, h.2.2.2.2.1 rfl⟩

/-- C7: on an upstream 200 with non-empty member list, the random endpoint
returns, for every outcome of the random source, the member at index
`r mod length` verbatim from the member list, makes exactly the one category
call (no re-fetch of entity detail), and the selector covers every position of
the full list: the draw at raw value `j` returns exactly the member at
position `j`, so a uniform random source selects every member with equal
probability. -/
theorem C7_random_member_verbatim (t : String)
    (upT : String → FetchOutcome TypeDoc) (r : Nat) (d : TypeDoc)
    (x : NamedAPIResource) (xs : List NamedAPIResource)
    (ht : t ≠ "") (hup : upT (pyLower t) = .reply 200 (.parsed d))
    (hm : (d.pokemon?.getD []).map (fun p => p.pokemon) = x :: xs) :
    get_random_pokemon_by_type (some t) upT r =
      (.jsonPokemon (pyChoice r x xs), [pyLower t]) ∧
    pyChoice r x xs ∈ x :: xs ∧
    (∀ j : Fin (x :: xs).length, pyChoice j.val x xs = (x :: xs).get j) := by
  refine ⟨?_, ?_, ?_⟩
  · simp [get_random_pokemon_by_type, ht, hup, hm]
  · exact List.get_mem (x :: xs) _ _
  · intro j
    have hj : (⟨j.val % (x :: xs).length,
        Nat.mod_lt j.val (Nat.succ_pos xs.length)⟩ : Fin (x :: xs).length) =
        j := Fin.ext (Nat.mod_eq_of_lt j.isLt)
    rw [pyChoice, hj]

/-- C7 witness: with members `[a, b, c]` and raw random value 4, the draw
returns the member at index `4 mod 3 = 1`, i.e. `b`, verbatim. -/
theorem C7_witness :
    get_random_pokemon_by_type (some "fire")
        (fun _ => .reply 200 (.parsed
          ⟨some [⟨⟨"a", "ua"⟩⟩, ⟨⟨"b", "ub"⟩⟩, ⟨⟨"c", "uc"⟩⟩]⟩)) 4 =
      (.jsonPokemon ⟨"b", "ub"⟩, [pyLower "fire"]) := by
  have h := (C7_random_member_verbatim "fire"
    (fun _ => .reply 200 (.parsed
      ⟨some [⟨⟨"a", "ua"⟩⟩, ⟨⟨"b", "ub"⟩⟩, ⟨⟨"c", "uc"⟩⟩]⟩)) 4
    ⟨some [⟨⟨"a", "ua"⟩⟩, ⟨⟨"b", "ub"⟩⟩, ⟨⟨"c", "uc"⟩⟩]⟩ ⟨"a", "ua"⟩
    [⟨"b", "ub"⟩, ⟨"c", "uc"⟩] (by decide) rfl rfl).1
  rw [h]
  decide

theorem maxNameLen_cons (x : NamedAPIResource) (xs : List NamedAPIResource) :
    maxNameLen (x :: xs) = max x.name.length (maxNameLen xs) := rfl

theorem pyMax_cons (x y : NamedAPIResource) (ys : List NamedAPIResource) :
    pyMaxByNameLen x (y :: ys) =
      pyMaxByNameLen (if x.name.length < y.name.length then y else x) ys := rfl

theorem len_pyMaxStep (x y : NamedAPIResource) :
    (if x.name.length < y.name.length then y else x).name.length =
      max x.name.length y.name.length := by
  by_cases h : x.name.length < y.name.length <;> simp [h] <;> omega

theorem len_pyMax (xs : List NamedAPIResource) :
    ∀ x, (pyMaxByNameLen x xs).name.length =
      max x.name.length (maxNameLen xs) := by
  induction xs with
  | nil =>
    intro x
    simp [pyMaxByNameLen, maxNameLen]
  | cons y ys ih =>
    intro x
    rw [pyMax_cons, ih, len_pyMaxStep, maxNameLen_cons]
    omega

theorem mem_le_maxNameLen (xs : List NamedAPIResource) :
    ∀ y ∈ xs, y.name.length ≤ maxNameLen xs := by
  induction xs with
  | nil =>
    intro y hy
    cases hy
  | cons z zs ih =>
    intro y hy
    rw [maxNameLen_cons]
    rcases List.mem_cons.mp hy with h | h
    · rw [h]
      omega
    · have := ih y h
      omega

theorem pyMax_mem (xs : List NamedAPIResource) :
    ∀ x, pyMaxByNameLen x xs ∈ x :: xs := by
  induction xs with
  | nil =>
    intro x
    simp [pyMaxByNameLen]
  | cons y ys ih =>
    intro x
    rw [pyMax_cons]
    rcases List.mem_cons.mp
        (ih (if x.name.length < y.name.length then y else x)) with h1 | h1
    · rw [h1]
      by_cases hxy : x.name.length < y.name.length
      · simp [hxy]
      · simp [hxy]
    · exact List.mem_cons_of_mem x (List.mem_cons_of_mem y h1)

theorem firstLongestSpec_cons (xs : List NamedAPIResource) :
    ∀ x, firstLongestSpec (x :: xs) = some (pyMaxByNameLen x xs) := by
  induction xs with
  | nil =>
    intro x
    simp [firstLongestSpec, pyMaxByNameLen, maxNameLen, List.find?]
  | cons y ys ih =>
    intro x
    rw [pyMax_cons, ← ih]
    unfold firstLongestSpec
    have hM : maxNameLen
        ((if x.name.length < y.name.length then y else x) :: ys) =
        maxNameLen (x :: y :: ys) := by
      rw [maxNameLen_cons, len_pyMaxStep, maxNameLen_cons, maxNameLen_cons]
      omega
    rw [hM]
    have hxle : x.name.length ≤ maxNameLen (x :: y :: ys) := by
      rw [maxNameLen_cons]
      omega
    by_cases hxy : x.name.length < y.name.length
    · have hyM : x.name.length < maxNameLen (x :: y :: ys) := by
        rw [maxNameLen_cons, maxNameLen_cons]
        omega
      have hpx : (x.name.length == maxNameLen (x :: y :: ys)) = false := by
        simp
        omega
      rw [if_pos hxy, List.find?_cons_of_neg _ (by simp [hpx])]
    · rw [if_neg hxy]
      by_cases hxM : x.name.length = maxNameLen (x :: y :: ys)
      · have hpx : (x.name.length == maxNameLen (x :: y :: ys)) = true := by
          simp [hxM]
        rw [List.find?_cons_of_pos _ (by simp [hpx]),
          List.find?_cons_of_pos _ (by simp [hpx])]
      · have hxlt : x.name.length < maxNameLen (x :: y :: ys) := by
          omega
        have hylt : y.name.length < maxNameLen (x :: y :: ys) := by
          omega
        have hpx : (x.name.length == maxNameLen (x :: y :: ys)) = false := by
          simp
          omega
        have hpy : (y.name.length == maxNameLen (x :: y :: ys)) = false := by
          simp
          omega
        rw [List.find?_cons_of_neg _ (by simp [hpx]),
          List.find?_cons_of_neg _ (by simp [hpy]),
          List.find?_cons_of_neg _ (by simp [hpx])]

/-- C4: on an upstream 200 with non-empty member list, the longest-name
endpoint returns verbatim the member computed by CPython's `max` with a
length key; that member belongs to the list, its name length is maximal, and
it is exactly the first member of maximal name length in upstream list order
(the spec's `firstLongestSpec`), deterministically. -/
theorem C4_longest_is_first_max (t : String)
    (upT : String → FetchOutcome TypeDoc) (d : TypeDoc)
    (x : NamedAPIResource) (xs : List NamedAPIResource)
    (ht : t ≠ "") (hup : upT (pyLower t) = .reply 200 (.parsed d))
    (hm : (d.pokemon?.getD []).map (fun p => p.pokemon) = x :: xs) :
    get_longest_name_pokemon (some t) upT =
      (.jsonPokemon (pyMaxByNameLen x xs), [pyLower t]) ∧
    pyMaxByNameLen x xs ∈ x :: xs ∧
    (∀ y ∈ x :: xs, y.name.length ≤ (pyMaxByNameLen x xs).name.length) ∧
    firstLongestSpec (x :: xs) = some (pyMaxByNameLen x xs) := by
  refine ⟨?_, pyMax_mem xs x, ?_, firstLongestSpec_cons xs x⟩
  · simp [get_longest_name_pokemon, ht, hup, hm]
  · intro y hy
    rw [len_pyMax]
    have h1 := mem_le_maxNameLen (x :: xs) y hy
    rw [maxNameLen_cons] at h1
    omega

/-- C4 witness: the constructed tie `[{"name":"aa"},{"name":"bb"}]` (both of
length 2) deterministically returns the first, `"aa"`. -/
theorem C4_witness :
    get_longest_name_pokemon (some "water")
        (fun _ => .reply 200 (.parsed ⟨some [⟨⟨"aa", "u1"⟩⟩, ⟨⟨"bb", "u2"⟩⟩]⟩)) =
      (.jsonPokemon ⟨"aa", "u1"⟩, [pyLower "water"]) := by
  have h := (C4_longest_is_first_max "water"
    (fun _ => .reply 200 (.parsed ⟨some [⟨⟨"aa", "u1"⟩⟩, ⟨⟨"bb", "u2"⟩⟩]⟩))
    ⟨some [⟨⟨"aa", "u1"⟩⟩, ⟨⟨"bb", "u2"⟩⟩]⟩ ⟨"aa", "u1"⟩ [⟨"bb", "u2"⟩]
    (by decide) rfl rfl).1
  rw [h]
  decide

end PokeAPI
